import Mathlib

/-!
Verification of the financial-metrics engine of the Real Estate Deal Analyzer
(`src/realestana.py`).  All monetary and rate quantities are embedded as exact
rationals (`ℚ`); counts of payments and loan-term years are naturals.  Each
definition mirrors the corresponding Python function or the inline formula
block in `main` line by line.
-/

namespace RealEstate

/-- Embeds `calculate_mortgage_payment` (src/realestana.py lines 9-12):
zero monthly interest gives straight-line `loan_amount / num_payments`,
otherwise the standard annuity formula. -/
def calculate_mortgage_payment (loan_amount monthly_interest : ℚ) (num_payments : ℕ) : ℚ :=
  if monthly_interest = 0 then
    loan_amount / num_payments
  else
    loan_amount * (monthly_interest * (1 + monthly_interest) ^ num_payments) /
      ((1 + monthly_interest) ^ num_payments - 1)

/-- Embeds the cash-flow series built inside `calculate_irr`
(src/realestana.py line 17): `[-price] + [(rent - total_expenses -
loan_amount*(interest_rate/12)) for _ in range(loan_term*12)]`. -/
def irrCashFlows (price rent total_expenses loan_amount : ℚ) (loan_term : ℕ)
    (interest_rate : ℚ) : List ℚ :=
  (-price) :: List.replicate (loan_term * 12)
    (rent - total_expenses - loan_amount * (interest_rate / 12))

/-- Embeds `calculate_payback_period` (src/realestana.py lines 24-27).
`none` models the Python `float('inf')` branch taken when `cash_flow ≤ 0`. -/
def calculate_payback_period (down_payment cash_flow : ℚ) : Option ℚ :=
  if cash_flow > 0 then some (down_payment / cash_flow) else none

/-- Embeds `calculate_tax_benefits` (src/realestana.py lines 30-31). -/
def calculate_tax_benefits (depreciation interest_deduction : ℚ) : ℚ :=
  depreciation + interest_deduction

/-- The numeric inputs collected by the Property Input tab
(src/realestana.py lines 43-53). -/
structure PropertyInputs where
  property_price : ℚ
  rent_income : ℚ
  operating_expenses : ℚ
  property_tax : ℚ
  loan_amount : ℚ
  down_payment : ℚ
  interest_rate : ℚ
  loan_term : ℕ
  num_units : ℚ
  depreciation : ℚ
  interest_deduction : ℚ

/-- The quantities computed by the Analysis Results block
(src/realestana.py lines 62-86), minus the float-valued IRR percentage;
the IRR cash-flow series that line 83 hands to `npf.irr` is kept. -/
structure MetricsResult where
  rent : ℚ
  expenses : ℚ
  monthly_interest : ℚ
  num_payments : ℕ
  mortgage_payment : ℚ
  annual_debt_service : ℚ
  total_expenses : ℚ
  noi : ℚ
  cash_flow : ℚ
  cap_rate : ℚ
  dcr : ℚ
  cash_on_cash_return : ℚ
  ltv : ℚ
  opex_ratio : ℚ
  cash_flow_per_unit : ℚ
  irr_cash_flows : List ℚ
  payback_period : Option ℚ
  tax_benefits : ℚ
  break_even_rent : ℚ

/-- Embeds the metrics block of `main` (src/realestana.py lines 62-86),
statement by statement. -/
def computeMetrics (p : PropertyInputs) : MetricsResult :=
  let rent := p.rent_income * 12
  let expenses := p.operating_expenses * 12
  let monthly_interest := p.interest_rate / 100 / 12
  let num_payments := p.loan_term * 12
  let mortgage_payment := calculate_mortgage_payment p.loan_amount monthly_interest num_payments
  let annual_debt_service := mortgage_payment * 12
  let total_expenses := expenses + p.property_tax
  let noi := rent - total_expenses
  let cash_flow := noi - annual_debt_service
  { rent := rent
    expenses := expenses
    monthly_interest := monthly_interest
    num_payments := num_payments
    mortgage_payment := mortgage_payment
    annual_debt_service := annual_debt_service
    total_expenses := total_expenses
    noi := noi
    cash_flow := cash_flow
    cap_rate := if p.property_price > 0 then noi / p.property_price * 100 else 0
    dcr := if annual_debt_service > 0 then noi / annual_debt_service else 0
    cash_on_cash_return := if p.down_payment > 0 then cash_flow / p.down_payment * 100 else 0
    ltv := if p.property_price > 0 then p.loan_amount / p.property_price * 100 else 0
    opex_ratio := if rent > 0 then total_expenses / rent * 100 else 0
    cash_flow_per_unit := if p.num_units > 0 then cash_flow / p.num_units else 0
    irr_cash_flows := irrCashFlows p.property_price rent total_expenses p.loan_amount
      p.loan_term (p.interest_rate / 100)
    payback_period := calculate_payback_period p.down_payment cash_flow
    tax_benefits := calculate_tax_benefits p.depreciation p.interest_deduction
    break_even_rent := if p.num_units > 0 then
      (total_expenses + annual_debt_service) / p.num_units / 12 else 0 }

/-- Embeds `np.linspace a b n` for `n ≥ 2`: `n` evenly spaced samples from
`a` to `b` inclusive, exactly as used at src/realestana.py lines 157-158. -/
def linspace (a b : ℚ) (n : ℕ) : List ℚ :=
  (List.range n).map fun i : ℕ => a + (b - a) * (i : ℚ) / ((n : ℚ) - 1)

/-- The swept interest-rate axis of the Sensitivity Analysis tab
(src/realestana.py line 157): `np.linspace(interest_rate - 2, interest_rate + 2, 5)`. -/
def interestRateAxis (p : PropertyInputs) : List ℚ :=
  linspace (p.interest_rate - 2) (p.interest_rate + 2) 5

/-- The swept rent axis of the Sensitivity Analysis tab
(src/realestana.py line 158): `np.linspace(rent_income * 0.8, rent_income * 1.2, 5)`. -/
def rentAxis (p : PropertyInputs) : List ℚ :=
  linspace (p.rent_income * (8 / 10)) (p.rent_income * (12 / 10)) 5

/-- Embeds the nested sweep loops of the Sensitivity Analysis tab
(src/realestana.py lines 163-172): for each swept rate and rent the
mortgage payment is recomputed at the swept rate and a
`[rate, rent, noi, cash_flow]` row is appended. -/
def sensitivityData (p : PropertyInputs) : List (ℚ × ℚ × ℚ × ℚ) :=
  (interestRateAxis p).flatMap fun rate =>
    (rentAxis p).map fun rent =>
      let adjusted_rent := rent * 12
      let total_expenses := p.operating_expenses * 12 + p.property_tax
      let mortgage_payment :=
        calculate_mortgage_payment p.loan_amount (rate / 100 / 12) (p.loan_term * 12)
      let annual_debt_service := mortgage_payment * 12
      let noi := adjusted_rent - total_expenses
      let cash_flow := noi - annual_debt_service
      (rate, rent, noi, cash_flow)

/-- The end-to-end scenario of the spec: the default widget values of the
Property Input tab (src/realestana.py lines 43-53). -/
def exampleInputs : PropertyInputs :=
  { property_price := 100000
    rent_income := 1000
    operating_expenses := 200
    property_tax := 1200
    loan_amount := 80000
    down_payment := 20000
    interest_rate := 5
    loan_term := 30
    num_units := 1
    depreciation := 5000
    interest_deduction := 4000 }

/-- The amortization payment as the spec writes it:
`loanAmount * r * (1+r)^n / ((1+r)^n - 1)` for `r ≠ 0`, `loanAmount / n`
for `r = 0`.  Kept separate from `calculate_mortgage_payment` so the code
can be compared against the spec formula. -/
def monthlyPaymentSpec (loanAmount r : ℚ) (n : ℕ) : ℚ :=
  if r = 0 then loanAmount / n
  else loanAmount * r * (1 + r) ^ n / ((1 + r) ^ n - 1)

/-- An input set on which every guarded denominator is zero: price, rent,
down payment and unit count are all 0, and a zero loan at zero interest
makes the annual debt service 0. -/
def zeroInputs : PropertyInputs :=
  { property_price := 0
    rent_income := 0
    operating_expenses := 0
    property_tax := 0
    loan_amount := 0
    down_payment := 0
    interest_rate := 0
    loan_term := 1
    num_units := 0
    depreciation := 0
    interest_deduction := 0 }

/-- The sensitivity sweep as the spec describes it: over the Cartesian grid
of the two axes, each tuple is produced by invoking the metrics calculator
directly at that grid point's swept interest rate and rent (so the
amortization payment is re-derived per point through `computeMetrics`). -/
def sensitivitySweepSpec (p : PropertyInputs) : List (ℚ × ℚ × ℚ × ℚ) :=
  (interestRateAxis p).flatMap fun rate =>
    (rentAxis p).map fun rent =>
      let m := computeMetrics { p with interest_rate := rate, rent_income := rent }
      (rate, rent, m.noi, m.cash_flow)

/-- The end-to-end scenario inputs except for a negative property price,
an input the validation claim calls invalid. -/
def negPriceInputs : PropertyInputs :=
  { exampleInputs with property_price := -100000 }

/-- The end-to-end scenario inputs with a baseline interest rate of 1%,
strictly below the 2% threshold of the sensitivity-axis claim. -/
def lowRateInputs : PropertyInputs :=
  { exampleInputs with interest_rate := 1 }

end RealEstate

namespace RealEstate

/-- C1: for every `PropertyInputs` the metrics block computes
`annualRent = monthlyRent * 12`,
`annualExpenses = monthlyOperatingExpenses * 12 + annualPropertyTax`,
`noi = annualRent - annualExpenses` and
`annualCashFlow = noi - 12 * (amortization payment)`; and on the scenario
price=100000, rent=1000/mo, opex=200/mo, tax=1200/yr, loan=80000,
down=20000, rate=5%, term=30y it yields noi = 8400, monthly payment within
0.01 of 429.46, annual cash flow within 0.12 of 3246.4, cap rate 8.4%,
LTV 80% and cash-on-cash within 0.01 of 16.23%. -/
theorem metrics_formulas_and_scenario :
    (∀ p : PropertyInputs,
      (computeMetrics p).rent = p.rent_income * 12 ∧
      (computeMetrics p).total_expenses = p.operating_expenses * 12 + p.property_tax ∧
      (computeMetrics p).noi = (computeMetrics p).rent - (computeMetrics p).total_expenses ∧
      (computeMetrics p).annual_debt_service =
        12 * calculate_mortgage_payment p.loan_amount (p.interest_rate / 100 / 12)
          (p.loan_term * 12) ∧
      (computeMetrics p).cash_flow =
        (computeMetrics p).noi - (computeMetrics p).annual_debt_service) ∧
    (computeMetrics exampleInputs).noi = 8400 ∧
    |(computeMetrics exampleInputs).mortgage_payment - 42946 / 100| < 1 / 100 ∧
    |(computeMetrics exampleInputs).cash_flow - 32464 / 10| ≤ 12 / 100 ∧
    (computeMetrics exampleInputs).cap_rate = 84 / 10 ∧
    (computeMetrics exampleInputs).ltv = 80 ∧
    |(computeMetrics exampleInputs).cash_on_cash_return - 1623 / 100| < 1 / 100 := by
  refine ⟨fun p => ⟨rfl, rfl, rfl, (mul_comm _ _), rfl⟩, ?_, ?_, ?_, ?_, ?_, ?_⟩
  · norm_num [computeMetrics, exampleInputs]
  · rw [abs_sub_lt_iff]
    norm_num [computeMetrics, exampleInputs, calculate_mortgage_payment]
  · rw [abs_sub_le_iff]
    norm_num [computeMetrics, exampleInputs, calculate_mortgage_payment]
  · norm_num [computeMetrics, exampleInputs]
  · norm_num [computeMetrics, exampleInputs]
  · rw [abs_sub_lt_iff]
    norm_num [computeMetrics, exampleInputs, calculate_mortgage_payment]

/-- C2: for loanAmount ≥ 0, monthlyInterestRate ≥ 0, numPayments ≥ 1,
the amortization calculator returns `loanAmount / numPayments` when the
rate is 0 and otherwise the spec's annuity formula
`loanAmount * r * (1+r)^n / ((1+r)^n - 1)`; in particular
`monthlyPayment(100000, 0, 12) = 100000 / 12`. -/
theorem mortgage_payment_matches_spec (L r : ℚ) (n : ℕ)
    (hL : 0 ≤ L) (hr : 0 ≤ r) (hn : 1 ≤ n) :
    calculate_mortgage_payment L r n = monthlyPaymentSpec L r n ∧
    (r = 0 → calculate_mortgage_payment L r n = L / n) ∧
    (r ≠ 0 → calculate_mortgage_payment L r n =
      L * r * (1 + r) ^ n / ((1 + r) ^ n - 1)) ∧
    calculate_mortgage_payment 100000 0 12 = 100000 / 12 := by
  refine ⟨?_, ?_, ?_, ?_⟩
  · by_cases h : r = 0 <;>
      simp [calculate_mortgage_payment, monthlyPaymentSpec, h, mul_assoc]
  · intro h; simp [calculate_mortgage_payment, h]
  · intro h; simp [calculate_mortgage_payment, h, mul_assoc]
  · norm_num [calculate_mortgage_payment]

/-- Witness for C2 at loanAmount 100000, rate 0, 12 payments. -/
theorem mortgage_payment_matches_spec_witness :
    calculate_mortgage_payment 100000 0 12 = 100000 / 12 ∧
    calculate_mortgage_payment 100000 0 12 = monthlyPaymentSpec 100000 0 12 :=
  ⟨(mortgage_payment_matches_spec 100000 0 12 (by norm_num) le_rfl (by norm_num)).2.2.2,
   (mortgage_payment_matches_spec 100000 0 12 (by norm_num) le_rfl (by norm_num)).1⟩

/-- C3: each guarded ratio — cap rate, DCR, cash-on-cash, LTV, OER,
cash-flow-per-unit, break-even rent — equals 0 whenever its denominator
(price, annual debt service, down payment, price, annual rent, numUnits,
numUnits) is 0; the guards make the ratios total, so no division error can
reach the caller. -/
theorem ratio_zero_denominator_guards (p : PropertyInputs) :
    (p.property_price = 0 → (computeMetrics p).cap_rate = 0) ∧
    ((computeMetrics p).annual_debt_service = 0 → (computeMetrics p).dcr = 0) ∧
    (p.down_payment = 0 → (computeMetrics p).cash_on_cash_return = 0) ∧
    (p.property_price = 0 → (computeMetrics p).ltv = 0) ∧
    ((computeMetrics p).rent = 0 → (computeMetrics p).opex_ratio = 0) ∧
    (p.num_units = 0 → (computeMetrics p).cash_flow_per_unit = 0) ∧
    (p.num_units = 0 → (computeMetrics p).break_even_rent = 0) := by
  refine ⟨fun h => ?_, fun h => ?_, fun h => ?_, fun h => ?_, fun h => ?_,
    fun h => ?_, fun h => ?_⟩ <;>
    simp only [computeMetrics, MetricsResult.rent, MetricsResult.annual_debt_service] at h ⊢ <;>
    simp [h]

/-- Witness for C3: on `zeroInputs` all seven guarded ratios evaluate to 0. -/
theorem ratio_zero_denominator_guards_witness :
    (computeMetrics zeroInputs).cap_rate = 0 ∧
    (computeMetrics zeroInputs).dcr = 0 ∧
    (computeMetrics zeroInputs).cash_on_cash_return = 0 ∧
    (computeMetrics zeroInputs).ltv = 0 ∧
    (computeMetrics zeroInputs).opex_ratio = 0 ∧
    (computeMetrics zeroInputs).cash_flow_per_unit = 0 ∧
    (computeMetrics zeroInputs).break_even_rent = 0 := by
  have h := ratio_zero_denominator_guards zeroInputs
  exact ⟨h.1 rfl,
    h.2.1 (by norm_num [computeMetrics, calculate_mortgage_payment, zeroInputs]),
    h.2.2.1 rfl, h.2.2.2.1 rfl,
    h.2.2.2.2.1 (by norm_num [computeMetrics, zeroInputs]),
    h.2.2.2.2.2.1 rfl, h.2.2.2.2.2.2 rfl⟩

/-- C5: the payback period is `downPayment / annualCashFlow` when
`annualCashFlow > 0` and "not applicable" (the code's `float('inf')`,
modelled as `none`) for every `annualCashFlow ≤ 0`, including exactly 0;
e.g. downPayment = 20000, annualCashFlow = 2000 give 10.0 years. -/
theorem payback_period_policy (d cf : ℚ) :
    (0 < cf → calculate_payback_period d cf = some (d / cf)) ∧
    (cf ≤ 0 → calculate_payback_period d cf = none) ∧
    calculate_payback_period 20000 2000 = some 10 := by
  refine ⟨fun h => ?_, fun h => ?_, ?_⟩
  · simp [calculate_payback_period, h]
  · simp [calculate_payback_period, not_lt.mpr h]
  · norm_num [calculate_payback_period]

/-- Witness for C5: the 20000 / 2000 = 10 years example, a zero cash flow
and a negative cash flow both giving "not applicable". -/
theorem payback_period_policy_witness :
    calculate_payback_period 20000 2000 = some 10 ∧
    calculate_payback_period 20000 0 = none ∧
    calculate_payback_period 20000 (-5) = none :=
  ⟨(payback_period_policy 20000 2000).2.2,
   (payback_period_policy 20000 0).2.1 le_rfl,
   (payback_period_policy 20000 (-5)).2.1 (by norm_num)⟩

/-- C6: the IRR cash-flow series has `loanTermYears * 12 + 1` entries,
period 0 is `-price`, every later period equals
`annualRent - annualExpenses - loanAmount * (annualInterestRateFraction / 12)`
(the interest-only monthly approximation), and the series `main` builds is
exactly `irrCashFlows` applied to the annual rent, annual expenses and the
interest-rate fraction `interest_rate / 100`. -/
theorem irr_cash_flow_series (price rent total_expenses loan_amount ir : ℚ)
    (loan_term : ℕ) :
    (irrCashFlows price rent total_expenses loan_amount loan_term ir).length =
      loan_term * 12 + 1 ∧
    (irrCashFlows price rent total_expenses loan_amount loan_term ir).head? =
      some (-price) ∧
    (∀ x ∈ (irrCashFlows price rent total_expenses loan_amount loan_term ir).tail,
      x = rent - total_expenses - loan_amount * (ir / 12)) ∧
    (∀ p : PropertyInputs, (computeMetrics p).irr_cash_flows =
      irrCashFlows p.property_price (p.rent_income * 12)
        (p.operating_expenses * 12 + p.property_tax) p.loan_amount p.loan_term
        (p.interest_rate / 100)) := by
  refine ⟨by simp [irrCashFlows], rfl, fun x hx => ?_, fun p => rfl⟩
  exact List.eq_of_mem_replicate (by simpa [irrCashFlows] using hx)

/-- Witness for C6 at price 100, annual rent 1, annual expenses 2, loan 3,
term 1 year, rate fraction 12: the 12 monthly entries all equal
1 - 2 - 3 * (12 / 12). -/
theorem irr_cash_flow_series_witness :
    (-4 : ℚ) = 1 - 2 - 3 * (12 / 12) ∧
    (irrCashFlows 100 1 2 3 1 12).length = 13 :=
  ⟨(irr_cash_flow_series 100 1 2 3 12 1).2.2.1 (-4)
      (by norm_num [irrCashFlows, List.mem_replicate]),
   (irr_cash_flow_series 100 1 2 3 12 1).1⟩

/-- C7: the sensitivity sweep over the 5-point interest-rate axis
(baseline ±2 points) and the 5-point rent axis (baseline ×0.8..×1.2)
produces exactly 25 tuples, and the sweep equals, tuple for tuple, the
result of invoking the metrics calculator (and hence the amortization
calculator) directly at each grid point's swept rate and rent — debt
service recomputed per point, not held fixed. -/
theorem sensitivity_sweep_refines_metrics (p : PropertyInputs) :
    (sensitivityData p).length = 25 ∧
    sensitivityData p = sensitivitySweepSpec p :=
  ⟨rfl, rfl⟩

/-- Auxiliary for C8: for a positive rate the annuity denominator
`(1+r)^n - 1` stays strictly below `n * r * (1+r)^n`. -/
theorem annuity_denom_lt (r : ℚ) (hr : 0 < r) (n : ℕ) (hn : 1 ≤ n) :
    (1 + r) ^ n - 1 < n * r * (1 + r) ^ n := by
  induction n, hn using Nat.le_induction with
  | base => push_cast; nlinarith
  | succ m hm ih =>
    have hp : (0:ℚ) < (1 + r) ^ m := by positivity
    have hmq : (0:ℚ) ≤ (m:ℚ) := Nat.cast_nonneg m
    push_cast
    push_cast at ih
    rw [pow_succ]
    nlinarith [mul_pos (mul_pos (by linarith : (0:ℚ) < (m:ℚ) + 1) hr) (mul_pos hp hr)]

/-- C8 counterexample: at loanAmount 0, rate 1 and a single payment the
total paid equals the loan amount even though the rate is nonzero, so the
claim's "with equality exactly when rate = 0" is false as stated. -/
theorem mortgage_equality_at_nonzero_rate :
    ¬ ∀ (L r : ℚ) (n : ℕ), 0 ≤ L → 0 ≤ r → 1 ≤ n →
      (L ≤ calculate_mortgage_payment L r n * n ∧
        (calculate_mortgage_payment L r n * n = L ↔ r = 0)) := by
  intro h
  have h1 := (h 0 1 1 le_rfl zero_le_one le_rfl).2.mp (by norm_num [calculate_mortgage_payment])
  exact one_ne_zero h1

/-- C8 (amended): for loanAmount ≥ 0, rate ≥ 0, n ≥ 1 the total paid
`monthlyPayment * n` is at least the loan amount; it equals the loan amount
when the rate is 0, and strictly exceeds it whenever both the rate and the
loan amount are positive (equality can also occur at a positive rate when
the loan amount is 0). -/
theorem mortgage_payment_covers_principal (L r : ℚ) (n : ℕ)
    (hL : 0 ≤ L) (hr : 0 ≤ r) (hn : 1 ≤ n) :
    L ≤ calculate_mortgage_payment L r n * n ∧
    (r = 0 → calculate_mortgage_payment L r n * n = L) ∧
    (0 < r → 0 < L → L < calculate_mortgage_payment L r n * n) := by
  have hn0 : (n:ℚ) ≠ 0 := Nat.cast_ne_zero.mpr (by omega)
  by_cases h : r = 0
  · subst h
    have hpay : calculate_mortgage_payment L 0 n * n = L := by
      simp [calculate_mortgage_payment, div_mul_cancel₀ _ hn0]
    exact ⟨le_of_eq hpay.symm, fun _ => hpay, fun h0 _ => absurd h0 (lt_irrefl 0)⟩
  · have hr' : 0 < r := lt_of_le_of_ne hr (Ne.symm h)
    have h1 : (1:ℚ) < 1 + r := by linarith
    have hD : 0 < (1 + r) ^ n - 1 := by
      have := one_lt_pow₀ h1 (by omega : n ≠ 0)
      linarith
    have hkey := annuity_denom_lt r hr' n hn
    have hpay : calculate_mortgage_payment L r n = L * (r * (1 + r) ^ n) / ((1 + r) ^ n - 1) := by
      simp [calculate_mortgage_payment, h]
    refine ⟨?_, fun h0 => absurd h0 h, fun _ hL' => ?_⟩
    · rw [hpay, div_mul_eq_mul_div, le_div_iff₀ hD]
      nlinarith [mul_le_mul_of_nonneg_left (le_of_lt hkey) hL]
    · rw [hpay, div_mul_eq_mul_div, lt_div_iff₀ hD]
      nlinarith [mul_lt_mul_of_pos_left hkey hL']

/-- Witness for C8 at loanAmount 1200, rate 1, 2 payments: the payment is
1600, and 2 × 1600 strictly exceeds 1200. -/
theorem mortgage_payment_covers_principal_witness :
    (1200:ℚ) < calculate_mortgage_payment 1200 1 2 * (2:ℕ) ∧
    calculate_mortgage_payment 1200 1 2 = 1600 :=
  ⟨(mortgage_payment_covers_principal 1200 1 2 (by norm_num) (by norm_num)
      (by norm_num)).2.2 one_pos (by norm_num),
   by norm_num [calculate_mortgage_payment]⟩

/-- C9 counterexample: on an input whose property price is -100000 — a
negative monetary value the claim says must be rejected with an
"invalid input" error before any metric is computed — the engine computes
the full metric set anyway: noi is 8400 and the price-denominated ratios
silently fall back to 0. -/
theorem metrics_computed_on_invalid_input :
    (computeMetrics negPriceInputs).noi = 8400 ∧
    (computeMetrics negPriceInputs).cap_rate = 0 ∧
    (computeMetrics negPriceInputs).ltv = 0 := by
  refine ⟨?_, ?_, ?_⟩ <;> norm_num [computeMetrics, negPriceInputs, exampleInputs]

/-- C9 (amended): the engine performs no input re-validation: even on an
invalid input with a negative property price every metric is still computed
by the same total formulas — there is no error path — and the
price-denominated ratios silently fall back to 0 because the positivity
guard fails; input constraints are enforced only by the UI widgets. -/
theorem no_input_revalidation (p : PropertyInputs) (h : p.property_price < 0) :
    (computeMetrics p).noi =
      p.rent_income * 12 - (p.operating_expenses * 12 + p.property_tax) ∧
    (computeMetrics p).cash_flow = (computeMetrics p).noi -
      12 * calculate_mortgage_payment p.loan_amount (p.interest_rate / 100 / 12)
        (p.loan_term * 12) ∧
    (computeMetrics p).cap_rate = 0 ∧
    (computeMetrics p).ltv = 0 := by
  have h' : ¬ p.property_price > 0 := by linarith
  refine ⟨rfl, ?_, by simp [computeMetrics, h'], by simp [computeMetrics, h']⟩
  simp only [computeMetrics]
  ring

/-- Witness for C9's amended statement on the concrete negative-price
input. -/
theorem no_input_revalidation_witness :
    (computeMetrics negPriceInputs).cap_rate = 0 ∧
    (computeMetrics negPriceInputs).ltv = 0 := by
  have h := no_input_revalidation negPriceInputs (by norm_num [negPriceInputs, exampleInputs])
  exact ⟨h.2.2.1, h.2.2.2⟩

/-- C10: when the baseline annual rate is below 2% the sensitivity sweep's
interest-rate axis contains a strictly negative rate — outside the
amortization calculator's stated nonnegative-rate domain — yet for every
axis rate whose monthly rate is nonzero the annuity denominator
`(1+r)^n - 1` is nonzero, so the swept mortgage computation never divides
by zero. -/
theorem sweep_negative_rate_safe (p : PropertyInputs)
    (h0 : 0 ≤ p.interest_rate) (h2 : p.interest_rate < 2) (ht : 1 ≤ p.loan_term) :
    (∃ rate ∈ interestRateAxis p, rate < 0) ∧
    ∀ rate ∈ interestRateAxis p, rate / 100 / 12 ≠ 0 →
      (1 + rate / 100 / 12) ^ (p.loan_term * 12) - 1 ≠ 0 := by
  have hm : p.loan_term * 12 ≠ 0 := by omega
  constructor
  · refine ⟨p.interest_rate - 2, ?_, by linarith⟩
    rw [interestRateAxis, linspace]
    refine List.mem_map.mpr ⟨0, List.mem_range.mpr (by norm_num), ?_⟩
    push_cast
    ring
  · rintro rate hrate hne
    rw [interestRateAxis, linspace] at hrate
    obtain ⟨i, hi, heq⟩ := List.mem_map.mp hrate
    have heq' : rate = p.interest_rate - 2 + i := by rw [← heq]; push_cast; ring
    have hlb : (-2 : ℚ) ≤ rate := by
      have hc : (0:ℚ) ≤ (i:ℚ) := Nat.cast_nonneg i
      linarith [heq']
    have hrlb : (-1 : ℚ) < rate / 100 / 12 := by linarith
    rcases lt_trichotomy (rate / 100 / 12) 0 with hneg | hzero | hpos
    · have h01 : (0:ℚ) < 1 + rate / 100 / 12 := by linarith
      have hlt1 : 1 + rate / 100 / 12 < 1 := by linarith
      intro habs
      linarith [pow_lt_one₀ (le_of_lt h01) hlt1 hm]
    · exact absurd hzero hne
    · intro habs
      linarith [one_lt_pow₀ (by linarith : (1:ℚ) < 1 + rate / 100 / 12) hm]

/-- Witness for C10 on the 1% baseline input: the axis contains a negative
rate. -/
theorem sweep_negative_rate_safe_witness :
    ∃ rate ∈ interestRateAxis lowRateInputs, rate < 0 :=
  (sweep_negative_rate_safe lowRateInputs
    (by norm_num [lowRateInputs, exampleInputs])
    (by norm_num [lowRateInputs, exampleInputs])
    (by norm_num [lowRateInputs, exampleInputs])).1

end RealEstate
